import Mathlib

/-!
Shallow embedding of the rag-with-cdk stacks. Each construct the claims
concern is modelled as a Lean structure mirroring the fields set in the
TypeScript source; purely declarative networking and policy configuration
that no claim mentions is elided. Deploy-time tokens (the generated queue
url, the collection attribute id, the region, the account) are passed in as
abstract string parameters.
-/

namespace RagCdk

/-- Time span in whole seconds, mirroring cdk.Duration. -/
structure Duration where
  totalSeconds : Nat
deriving DecidableEq

/-- Mirrors cdk.Duration.minutes. -/
def Duration.minutes (n : Nat) : Duration := ⟨n * 60⟩

/-- Mirrors cdk.Duration.seconds. -/
def Duration.ofSeconds (n : Nat) : Duration := ⟨n⟩

/-- Mirrors cdk.Duration.days. -/
def Duration.days (n : Nat) : Duration := ⟨n * 86400⟩

/-- Value in a JSON.stringify payload: the payloads built by the source hold
strings and numbers. -/
inductive JVal where
  | str : String → JVal
  | num : Nat → JVal
deriving DecidableEq

/-- Subset of aws-lambda Function configuration that the claims concern. -/
structure LambdaFunction where
  functionName : Option String
  handler : String
  runtime : String
  timeout : Option Duration
  memorySize : Option Nat
  retryAttempts : Option Nat
  environment : List (String × String)
deriving DecidableEq

/-- Parameters of the Lambda invoke call issued by an AwsCustomResource. -/
structure LambdaInvokeParams where
  FunctionName : String
  InvocationType : String
  Payload : List (String × JVal)
deriving DecidableEq

/-- One sdk call of an AwsCustomResource (an onCreate or onDelete block). -/
structure AwsSdkCall where
  service : String
  action : String
  parameters : LambdaInvokeParams
  physicalResourceId : Option String
deriving DecidableEq

/-- Subset of cr.AwsCustomResource configuration that the claims concern,
together with the construct-level dependencies added via node.addDependency
after construction. -/
structure AwsCustomResource where
  installLatestAwsSdk : Bool
  onCreate : Option AwsSdkCall
  onUpdate : Option AwsSdkCall
  onDelete : Option AwsSdkCall
  timeout : Option Duration
  dependencies : List String
deriving DecidableEq

/-- Props of OpensearchBedrockRagCdkStack; the vpc field is elided because the
constructor body never reads it. -/
structure OpensearchProps where
  environment : String
  projectName : String
deriving DecidableEq

/-- Fields of the opensearchserverless CfnCollection used here. -/
structure CfnCollection where
  name : String
  collectionType : String
deriving DecidableEq

/-- Result of the OpensearchBedrockRagCdkStack constructor body. -/
structure OpensearchBedrockRagCdkStack where
  CollectionName : String
  collection : CfnCollection
  createIndexLambda : LambdaFunction
  vectorIndex : AwsCustomResource
  geminiVectorIndex : AwsCustomResource
  claudeVectorIndex : AwsCustomResource
  OpenSearchEndpoint : String
  VectorIndexName : String
  VectorFieldName : String
deriving DecidableEq

/-- TypeScript template interpolation of a possibly missing value: a missing
value prints as the literal string undefined. -/
def tsTemplateOpt : Option String → String
  | some s => s
  | none => "undefined"

/-- Constructor body of OpensearchBedrockRagCdkStack. The props argument is
declared optional in the source (props?), hence Option. collectionAttrId and
region stand for the deploy-time tokens collection.attrId and the stack
region; the three node.addDependency calls made after construction are
reflected in the dependencies fields. -/
def opensearchStack (props : Option OpensearchProps)
    (collectionAttrId region : String) : OpensearchBedrockRagCdkStack :=
  let CollectionName :=
    tsTemplateOpt (props.map (fun p => p.projectName)) ++ "-collection"
  let vectorIndexName := CollectionName ++ "-index"
  let collection : CfnCollection :=
    { name := CollectionName, collectionType := "VECTORSEARCH" }
  let createIndexLambda : LambdaFunction :=
    { functionName := some "CreateIndexFunction"
      handler := "index.handler"
      runtime := "PYTHON_3_9"
      timeout := some (Duration.minutes 5)
      memorySize := none
      retryAttempts := none
      environment := [] }
  let Endpoint := collectionAttrId ++ "." ++ region ++ ".aoss.amazonaws.com"
  let vectorIndex : AwsCustomResource :=
    { installLatestAwsSdk := true
      onCreate := some
        { service := "Lambda"
          action := "invoke"
          parameters :=
            { FunctionName := "CreateIndexFunction"
              InvocationType := "RequestResponse"
              Payload :=
                [("RequestType", JVal.str "Create"),
                 ("CollectionName", JVal.str collection.name),
                 ("IndexName", JVal.str vectorIndexName),
                 ("VectorDimension", JVal.num 1536),
                 ("Endpoint", JVal.str Endpoint)] }
          physicalResourceId := some "vectorIndex" }
      onUpdate := none
      onDelete := some
        { service := "Lambda"
          action := "invoke"
          parameters :=
            { FunctionName := "CreateIndexFunction"
              InvocationType := "RequestResponse"
              Payload :=
                [("RequestType", JVal.str "Delete"),
                 ("CollectionName", JVal.str collection.name),
                 ("IndexName", JVal.str vectorIndexName),
                 ("Endpoint", JVal.str Endpoint)] }
          physicalResourceId := none }
      timeout := some (Duration.minutes 5)
      dependencies := ["OpenSearchCollection", "CreateIndexLambda"] }
  let geminiVectorIndex : AwsCustomResource :=
    { installLatestAwsSdk := true
      onCreate := some
        { service := "Lambda"
          action := "invoke"
          parameters :=
            { FunctionName := "CreateIndexFunction"
              InvocationType := "RequestResponse"
              Payload :=
                [("RequestType", JVal.str "Create"),
                 ("CollectionName", JVal.str collection.name),
                 ("IndexName", JVal.str "aoss-index"),
                 ("VectorDimension", JVal.num 768),
                 ("Endpoint", JVal.str Endpoint)] }
          physicalResourceId := some "gemini-vector-index" }
      onUpdate := none
      onDelete := some
        { service := "Lambda"
          action := "invoke"
          parameters :=
            { FunctionName := "CreateIndexFunction"
              InvocationType := "RequestResponse"
              Payload :=
                [("RequestType", JVal.str "Delete"),
                 ("CollectionName", JVal.str collection.name),
                 ("IndexName", JVal.str "aoss-index"),
                 ("Endpoint", JVal.str Endpoint)] }
          physicalResourceId := none }
      timeout := none
      dependencies := ["OpenSearchCollection", "CreateIndexLambda"] }
  let claudeVectorIndex : AwsCustomResource :=
    { installLatestAwsSdk := true
      onCreate := some
        { service := "Lambda"
          action := "invoke"
          parameters :=
            { FunctionName := "CreateIndexFunction"
              InvocationType := "RequestResponse"
              Payload :=
                [("RequestType", JVal.str "Create"),
                 ("CollectionName", JVal.str collection.name),
                 ("IndexName", JVal.str "claude-embedding-index"),
                 ("VectorDimension", JVal.num 1024),
                 ("Endpoint", JVal.str Endpoint)] }
          physicalResourceId := some "claude-vector-index" }
      onUpdate := none
      onDelete := some
        { service := "Lambda"
          action := "invoke"
          parameters :=
            { FunctionName := "CreateIndexFunction"
              InvocationType := "RequestResponse"
              Payload :=
                [("RequestType", JVal.str "Delete"),
                 ("CollectionName", JVal.str collection.name),
                 ("IndexName", JVal.str "claude-embedding-index"),
                 ("Endpoint", JVal.str Endpoint)] }
          physicalResourceId := none }
      timeout := none
      dependencies := ["OpenSearchCollection", "CreateIndexLambda"] }
  { CollectionName := CollectionName
    collection := collection
    createIndexLambda := createIndexLambda
    vectorIndex := vectorIndex
    geminiVectorIndex := geminiVectorIndex
    claudeVectorIndex := claudeVectorIndex
    OpenSearchEndpoint := Endpoint
    VectorIndexName := vectorIndexName
    VectorFieldName := "vector_field" }

/-- One delivery of a lifecycle event to a custom resource, carrying the
idempotency token of the request. -/
structure CustomResourceEvent where
  requestType : String
  idempotencyToken : String
deriving DecidableEq

/-- Physical id configured on the onCreate call of a custom resource. -/
def configuredPhysicalId (r : AwsCustomResource) : Option String :=
  r.onCreate.bind (fun c => c.physicalResourceId)

/-- Physical id returned by a Create delivery: with PhysicalResourceId.of the
configured constant is returned, whatever the delivery. -/
def createPhysicalId (r : AwsCustomResource) (_e : CustomResourceEvent) :
    Option String :=
  configuredPhysicalId r

/-- Modelled from the spec: the hosting platform (the custom resource
framework executing these sdk calls, which is not part of src/) identifies
the underlying resource by the returned physical id, so a Create delivery
whose physical id is already live adds no second resource. -/
def applyCreateDelivery (live : List String) (r : AwsCustomResource)
    (e : CustomResourceEvent) : List String :=
  match createPhysicalId r e with
  | some pid => if pid ∈ live then live else live ++ [pid]
  | none => live

/-- Keys of the JSON payload of an sdk call, in order. -/
def payloadKeys : Option AwsSdkCall → List String
  | some c => c.parameters.Payload.map (fun kv => kv.1)
  | none => []

/-- Dead letter target of an sqs Queue. -/
structure DeadLetterQueueConfig where
  maxReceiveCount : Nat
deriving DecidableEq

/-- Subset of sqs Queue configuration that the claims concern. -/
structure Queue where
  visibilityTimeout : Option Duration
  retentionPeriod : Option Duration
  deadLetterQueue : Option DeadLetterQueueConfig
deriving DecidableEq

/-- Fields of events.Schedule.cron used by the ingest stack. -/
structure CronSchedule where
  day : String
  hour : String
  minute : String
deriving DecidableEq

/-- An events.Rule together with the targets added to it. -/
structure EventRule where
  schedule : CronSchedule
  description : String
  targets : List String
deriving DecidableEq

/-- Permission grants issued while building the ingest stack, by grantee
construct id. -/
inductive Grant where
  | s3Read : String → Grant
  | sqsSendMessages : String → Grant
  | sqsConsumeMessages : String → Grant
  | efsClientAccess : String → Grant
  | secretsManagerRead : String → Grant
deriving DecidableEq

/-- Props of IngestStack that the constructor body reads beyond declarative
networking (vpc, bastion and the efs wiring are elided). -/
structure IngestProps where
  s3BucketName : String
  environment : String
  projectName : String
  secretArn : Option String
deriving DecidableEq

/-- Result of the IngestStack constructor body. -/
structure IngestStack where
  queue : Queue
  metadataProcessor : LambdaFunction
  ingestionProcessor : LambdaFunction
  grants : List Grant
  eventSourceMappings : List String
  rules : List EventRule
deriving DecidableEq

/-- Private method createQueue of IngestStack. -/
def createQueue : Queue :=
  { visibilityTimeout := some (Duration.ofSeconds 900)
    retentionPeriod := some (Duration.days 4)
    deadLetterQueue := some { maxReceiveCount := 3 } }

/-- Private method createMetadataProcessor of IngestStack; queueUrl stands for
the deploy-time token of the queue url placed in the environment. -/
def createMetadataProcessor (props : IngestProps) (queueUrl : String) :
    LambdaFunction :=
  { functionName := none
    handler := "metadata_processor.handler"
    runtime := "PYTHON_3_10"
    timeout := some (Duration.minutes 5)
    memorySize := some 256
    retryAttempts := some 2
    environment := [("S3_BUCKET_NAME", props.s3BucketName),
                    ("QUEUE_URL", queueUrl)] }

/-- Private method createIngestionProcessor of IngestStack. -/
def createIngestionProcessor (props : IngestProps) (queueUrl : String) :
    LambdaFunction :=
  { functionName := none
    handler := "ingestion_processor.handler"
    runtime := "PYTHON_3_10"
    timeout := some (Duration.minutes 15)
    memorySize := some 1024
    retryAttempts := some 2
    environment := [("QUEUE_URL", queueUrl),
                    ("S3_BUCKET_NAME", props.s3BucketName)] }

/-- Grants issued inside createMetadataProcessor and setupPermissions, in
source order. No statement of the constructor attaches the queue as an event
source of any function or grants consume-messages on it. -/
def ingestGrants (props : IngestProps) : List Grant :=
  [Grant.s3Read "MetadataProcessorLambda",
   Grant.sqsSendMessages "MetadataProcessorLambda",
   Grant.s3Read "IngestionProcessorLambda",
   Grant.efsClientAccess "IngestionProcessorLambda"]
  ++ (match props.secretArn with
      | some _ => [Grant.secretsManagerRead "IngestionProcessorLambda"]
      | none => [])

/-- Private method createMonthlyTrigger of IngestStack: one rule, one target. -/
def createMonthlyTrigger : EventRule :=
  { schedule := { day := "1", hour := "0", minute := "0" }
    description := "Triggers metadata processor on the first of each month"
    targets := ["MetadataProcessorLambda"] }

/-- Constructor body of IngestStack. The source creates no event source
mapping anywhere (the lambda event sources import is unused), so that list is
empty; createMonthlyTrigger is the only rule created. -/
def ingestStack (props : IngestProps) (queueUrl : String) : IngestStack :=
  { queue := createQueue
    metadataProcessor := createMetadataProcessor props queueUrl
    ingestionProcessor := createIngestionProcessor props queueUrl
    grants := ingestGrants props
    eventSourceMappings := []
    rules := [createMonthlyTrigger] }

/-- Modelled from the spec: the platform scheduler, which is not part of src/,
keys schedule entries by identity; registering an entry replaces any existing
entry with the same identity instead of adding a second one. -/
def registerSchedule (reg : List (String × EventRule)) (id : String)
    (r : EventRule) : List (String × EventRule) :=
  (id, r) :: reg.filter (fun p => p.1 != id)

/-- Vpc value carried in storage stack props. -/
structure Vpc where
  vpcCidrBlock : String
deriving DecidableEq

/-- Props of StorageStack. The vpc field is statically required in the source
interface, but the constructor still checks it at runtime, so a missing value
is representable. -/
structure StorageStackProps where
  vpc : Option Vpc
  environment : String
  projectName : String
  allowedIpRange : Option String
deriving DecidableEq

/-- Resources created by a successful StorageStack construction. -/
structure StorageStack where
  bucketName : String
  dbSecretName : String
  databaseName : String
  createdResources : List String
deriving DecidableEq

/-- Constructor body of StorageStack: the vpc check runs before any resource
creation statement, so a missing vpc throws with nothing created. account
stands for the deploy-time account token used in the bucket name. -/
def storageStack (props : StorageStackProps) (account : String) :
    Except String StorageStack :=
  match props.vpc with
  | none => Except.error "VPC is required for StorageStack"
  | some _ =>
    Except.ok
      { bucketName := props.projectName ++ "-" ++ props.environment
          ++ "-rag-data-bucket-" ++ account
        dbSecretName := "/" ++ props.environment ++ "/" ++ props.projectName
          ++ "/db-credentials"
        databaseName := "auth_db"
        createdResources :=
          ["MyDataBucket", "DBCredentialsSecret", "DatabaseSecurityGroup",
           "MyDatabase", "MyTable"] }

/-- Construct ids created by a StorageStack construction attempt: none when
the constructor throws. -/
def storageResourcesOf : Except String StorageStack → List String
  | Except.ok s => s.createdResources
  | Except.error _ => []

/-- C1: for every external index resource of the stack, a redelivered Create
request with the same idempotency token returns the same physical id as the
first delivery, and the set of live underlying resources after the redelivery
is unchanged, because each physical resource id is a fixed constant set at
creation. -/
theorem create_redelivery_is_idempotent
    (props : Option OpensearchProps) (collectionAttrId region : String)
    (e₁ e₂ : CustomResourceEvent)
    (_hTok : e₂.idempotencyToken = e₁.idempotencyToken) :
    (createPhysicalId
        (opensearchStack props collectionAttrId region).vectorIndex e₂
      = createPhysicalId
        (opensearchStack props collectionAttrId region).vectorIndex e₁
    ∧ applyCreateDelivery
        (applyCreateDelivery []
          (opensearchStack props collectionAttrId region).vectorIndex e₁)
        (opensearchStack props collectionAttrId region).vectorIndex e₂
      = applyCreateDelivery []
          (opensearchStack props collectionAttrId region).vectorIndex e₁)
    ∧ (createPhysicalId
        (opensearchStack props collectionAttrId region).geminiVectorIndex e₂
      = createPhysicalId
        (opensearchStack props collectionAttrId region).geminiVectorIndex e₁
    ∧ applyCreateDelivery
        (applyCreateDelivery []
          (opensearchStack props collectionAttrId region).geminiVectorIndex e₁)
        (opensearchStack props collectionAttrId region).geminiVectorIndex e₂
      = applyCreateDelivery []
          (opensearchStack props collectionAttrId region).geminiVectorIndex e₁)
    ∧ (createPhysicalId
        (opensearchStack props collectionAttrId region).claudeVectorIndex e₂
      = createPhysicalId
        (opensearchStack props collectionAttrId region).claudeVectorIndex e₁
    ∧ applyCreateDelivery
        (applyCreateDelivery []
          (opensearchStack props collectionAttrId region).claudeVectorIndex e₁)
        (opensearchStack props collectionAttrId region).claudeVectorIndex e₂
      = applyCreateDelivery []
          (opensearchStack props collectionAttrId region).claudeVectorIndex e₁) := by
  refine ⟨⟨rfl, ?_⟩, ⟨rfl, ?_⟩, ⟨rfl, ?_⟩⟩ <;>
    simp [opensearchStack, applyCreateDelivery, createPhysicalId,
      configuredPhysicalId]

/-- Witness for C1 at a concrete stack and a concrete redelivered event. -/
theorem create_redelivery_is_idempotent_witness :
    ({ requestType := "Create", idempotencyToken := "idx-1" } :
        CustomResourceEvent).idempotencyToken
      = ({ requestType := "Create", idempotencyToken := "idx-1" } :
        CustomResourceEvent).idempotencyToken
    ∧ createPhysicalId
        (opensearchStack (some { environment := "dev", projectName := "rag-demo" })
          "cid" "ap-southeast-1").vectorIndex
        { requestType := "Create", idempotencyToken := "idx-1" }
      = createPhysicalId
        (opensearchStack (some { environment := "dev", projectName := "rag-demo" })
          "cid" "ap-southeast-1").vectorIndex
        { requestType := "Create", idempotencyToken := "idx-1" } :=
  ⟨rfl,
    (create_redelivery_is_idempotent
      (some { environment := "dev", projectName := "rag-demo" })
      "cid" "ap-southeast-1"
      { requestType := "Create", idempotencyToken := "idx-1" }
      { requestType := "Create", idempotencyToken := "idx-1" } rfl).1.1⟩

/-- C2 counterexample: the gemini index custom resource of a concretely built
stack sets no dispatch timeout at all, so it is not configured with the
5-minute timeout the claim asserts for all three index resources. -/
theorem gemini_index_has_no_timeout :
    (opensearchStack (some { environment := "dev", projectName := "rag-demo" })
        "cid" "ap-southeast-1").geminiVectorIndex.timeout = none
    ∧ (opensearchStack (some { environment := "dev", projectName := "rag-demo" })
        "cid" "ap-southeast-1").geminiVectorIndex.timeout
      ≠ some (Duration.minutes 5) := by
  refine ⟨rfl, ?_⟩
  simp [opensearchStack]

/-- C2 amended: only the vectorIndex custom resource is dispatched with the
5-minute timeout, and the worker lambda itself has a 5-minute timeout; the
gemini and claude index custom resources leave their dispatch timeout unset. -/
theorem index_dispatch_timeouts
    (props : Option OpensearchProps) (collectionAttrId region : String) :
    (opensearchStack props collectionAttrId region).vectorIndex.timeout
      = some (Duration.minutes 5)
    ∧ (opensearchStack props collectionAttrId region).createIndexLambda.timeout
      = some (Duration.minutes 5)
    ∧ (opensearchStack props collectionAttrId region).geminiVectorIndex.timeout
      = none
    ∧ (opensearchStack props collectionAttrId region).claudeVectorIndex.timeout
      = none :=
  ⟨rfl, rfl, rfl, rfl⟩

/-- C3 counterexample: the vectorIndex custom resource of a concretely built
stack defines no update handler, contradicting the claim that each custom
resource defines an update handler in addition to create and delete. -/
theorem vector_index_has_no_update_handler :
    (opensearchStack (some { environment := "dev", projectName := "rag-demo" })
        "cid" "ap-southeast-1").vectorIndex.onUpdate = none := rfl

/-- C3 amended: none of the three index custom resources defines an update
handler; each defines exactly a create and a delete handler, so no update
work request is ever sent for a changed payload and the stated update
transition is absent. -/
theorem index_resources_define_only_create_and_delete
    (props : Option OpensearchProps) (collectionAttrId region : String) :
    ((opensearchStack props collectionAttrId region).vectorIndex.onUpdate = none
    ∧ (opensearchStack props collectionAttrId region).vectorIndex.onCreate.isSome
        = true
    ∧ (opensearchStack props collectionAttrId region).vectorIndex.onDelete.isSome
        = true)
    ∧ ((opensearchStack props collectionAttrId region).geminiVectorIndex.onUpdate
        = none
    ∧ (opensearchStack props collectionAttrId region).geminiVectorIndex.onCreate.isSome
        = true
    ∧ (opensearchStack props collectionAttrId region).geminiVectorIndex.onDelete.isSome
        = true)
    ∧ ((opensearchStack props collectionAttrId region).claudeVectorIndex.onUpdate
        = none
    ∧ (opensearchStack props collectionAttrId region).claudeVectorIndex.onCreate.isSome
        = true
    ∧ (opensearchStack props collectionAttrId region).claudeVectorIndex.onDelete.isSome
        = true) :=
  ⟨⟨rfl, rfl, rfl⟩, ⟨rfl, rfl, rfl⟩, ⟨rfl, rfl, rfl⟩⟩

/-- C4 counterexample: the Create payload of the vectorIndex resource of a
concretely built stack consists of exactly the keys RequestType,
CollectionName, IndexName, VectorDimension and Endpoint; no idempotency token
field is part of the request. -/
theorem vector_index_create_payload_has_no_token_field :
    payloadKeys
      (opensearchStack (some { environment := "dev", projectName := "rag-demo" })
        "cid" "ap-southeast-1").vectorIndex.onCreate
      = ["RequestType", "CollectionName", "IndexName", "VectorDimension",
         "Endpoint"]
    ∧ "IdempotencyToken" ∉ payloadKeys
      (opensearchStack (some { environment := "dev", projectName := "rag-demo" })
        "cid" "ap-southeast-1").vectorIndex.onCreate := by
  refine ⟨rfl, ?_⟩
  simp [opensearchStack, payloadKeys]

/-- C4 amended: every Create work request carries the index name, the target
endpoint and the vector dimensionality (together with the request type and
collection name), but no idempotency token field; the payload key list of each
of the three index resources is exactly RequestType, CollectionName,
IndexName, VectorDimension, Endpoint. -/
theorem index_create_payload_fields
    (props : Option OpensearchProps) (collectionAttrId region : String) :
    payloadKeys (opensearchStack props collectionAttrId region).vectorIndex.onCreate
      = ["RequestType", "CollectionName", "IndexName", "VectorDimension",
         "Endpoint"]
    ∧ payloadKeys
        (opensearchStack props collectionAttrId region).geminiVectorIndex.onCreate
      = ["RequestType", "CollectionName", "IndexName", "VectorDimension",
         "Endpoint"]
    ∧ payloadKeys
        (opensearchStack props collectionAttrId region).claudeVectorIndex.onCreate
      = ["RequestType", "CollectionName", "IndexName", "VectorDimension",
         "Endpoint"]
    ∧ "IdempotencyToken" ∉ payloadKeys
        (opensearchStack props collectionAttrId region).vectorIndex.onCreate := by
  refine ⟨rfl, rfl, rfl, ?_⟩
  simp [opensearchStack, payloadKeys]

/-- C5: the three index resources sharing the one backing collection are
independent: each carries its own fixed physical id, the three ids are
pairwise distinct, each defines its own create and delete cycle, and each
carries an explicit dependency on the collection construct, so none can begin
creation before the collection exists. -/
theorem index_resources_independent_and_depend_on_collection
    (props : Option OpensearchProps) (collectionAttrId region : String) :
    (configuredPhysicalId (opensearchStack props collectionAttrId region).vectorIndex
      = some "vectorIndex"
    ∧ configuredPhysicalId
        (opensearchStack props collectionAttrId region).geminiVectorIndex
      = some "gemini-vector-index"
    ∧ configuredPhysicalId
        (opensearchStack props collectionAttrId region).claudeVectorIndex
      = some "claude-vector-index")
    ∧ (("vectorIndex" : String) ≠ "gemini-vector-index"
    ∧ ("vectorIndex" : String) ≠ "claude-vector-index"
    ∧ ("gemini-vector-index" : String) ≠ "claude-vector-index")
    ∧ ((opensearchStack props collectionAttrId region).vectorIndex.onCreate.isSome
        = true
    ∧ (opensearchStack props collectionAttrId region).vectorIndex.onDelete.isSome
        = true
    ∧ (opensearchStack props collectionAttrId region).geminiVectorIndex.onCreate.isSome
        = true
    ∧ (opensearchStack props collectionAttrId region).geminiVectorIndex.onDelete.isSome
        = true
    ∧ (opensearchStack props collectionAttrId region).claudeVectorIndex.onCreate.isSome
        = true
    ∧ (opensearchStack props collectionAttrId region).claudeVectorIndex.onDelete.isSome
        = true)
    ∧ ("OpenSearchCollection"
        ∈ (opensearchStack props collectionAttrId region).vectorIndex.dependencies
    ∧ "OpenSearchCollection"
        ∈ (opensearchStack props collectionAttrId region).geminiVectorIndex.dependencies
    ∧ "OpenSearchCollection"
        ∈ (opensearchStack props collectionAttrId region).claudeVectorIndex.dependencies) := by
  refine ⟨⟨rfl, rfl, rfl⟩, ⟨by decide, by decide, by decide⟩,
    ⟨rfl, rfl, rfl, rfl, rfl, rfl⟩, ?_, ?_, ?_⟩ <;>
    simp [opensearchStack]

/-- C6: the ingestion queue is configured with a dead letter queue and a
fixed maximum receive count of 3, and both worker lambdas carry a bounded
retry attempt configuration of 2 attempts, so an exhausted request lands on
the dead letter path instead of being dropped. -/
theorem dead_letter_path_configured (props : IngestProps) (queueUrl : String) :
    (ingestStack props queueUrl).queue.deadLetterQueue
      = some { maxReceiveCount := 3 }
    ∧ (ingestStack props queueUrl).metadataProcessor.retryAttempts = some 2
    ∧ (ingestStack props queueUrl).ingestionProcessor.retryAttempts = some 2 :=
  ⟨rfl, rfl, rfl⟩

/-- C7: constructing the ingest stack creates exactly one schedule rule, with
cron day 1 hour 0 minute 0 and the metadata processor as its only target, and
registering a schedule entry again under the same identity replaces the entry
instead of duplicating it. -/
theorem monthly_trigger_registered_once (props : IngestProps)
    (queueUrl : String) (reg : List (String × EventRule)) (id : String)
    (r : EventRule) :
    (ingestStack props queueUrl).rules
      = [{ schedule := { day := "1", hour := "0", minute := "0" }
           description := "Triggers metadata processor on the first of each month"
           targets := ["MetadataProcessorLambda"] }]
    ∧ registerSchedule (registerSchedule reg id r) id r
      = registerSchedule reg id r := by
  refine ⟨rfl, ?_⟩
  simp [registerSchedule, List.filter_filter]

/-- C8: constructing a StorageStack whose vpc is missing fails immediately
with the validation error, before creating any resource. -/
theorem storage_stack_requires_vpc
    (props : StorageStackProps) (account : String) (h : props.vpc = none) :
    storageStack props account = Except.error "VPC is required for StorageStack"
    ∧ storageResourcesOf (storageStack props account) = [] := by
  simp [storageStack, storageResourcesOf, h]

/-- Witness for C8 at concrete props with the vpc absent. -/
theorem storage_stack_requires_vpc_witness :
    ({ vpc := none, environment := "dev", projectName := "rag-demo",
       allowedIpRange := none } : StorageStackProps).vpc = none
    ∧ storageStack
        { vpc := none, environment := "dev", projectName := "rag-demo",
          allowedIpRange := none } "123456789012"
      = Except.error "VPC is required for StorageStack" :=
  ⟨rfl,
    (storage_stack_requires_vpc
      { vpc := none, environment := "dev", projectName := "rag-demo",
        allowedIpRange := none } "123456789012" rfl).1⟩

/-- C9: the ingestion processor receives the queue url in its environment,
but the constructed ingest stack contains no event source mapping and grants
no consume permission on the queue to any function, so queued messages are
never consumed by any component built by this program. -/
theorem ingestion_processor_never_consumes_queue
    (props : IngestProps) (queueUrl : String) (f : String) :
    ("QUEUE_URL", queueUrl)
      ∈ (ingestStack props queueUrl).ingestionProcessor.environment
    ∧ (ingestStack props queueUrl).eventSourceMappings = []
    ∧ Grant.sqsConsumeMessages f ∉ (ingestStack props queueUrl).grants := by
  refine ⟨?_, rfl, ?_⟩
  · simp [ingestStack, createIngestionProcessor]
  · cases h : props.secretArn <;>
      simp [ingestStack, ingestGrants, h]

/-- C10: constructing the opensearch stack with the props argument omitted
succeeds without any validation, and interpolation of the missing project
name yields the literal collection name undefined-collection and the index
name undefined-collection-index. -/
theorem omitted_props_yields_undefined_collection
    (collectionAttrId region : String) :
    (opensearchStack none collectionAttrId region).CollectionName
      = "undefined-collection"
    ∧ (opensearchStack none collectionAttrId region).VectorIndexName
      = "undefined-collection-index"
    ∧ (opensearchStack none collectionAttrId region).collection.name
      = "undefined-collection" :=
  ⟨rfl, rfl, rfl⟩

end RagCdk
